import Mathlib

/-!
Shallow embedding of the p5.sound oscillator module (`src/oscillator.js`)
and the noise module (the unnamed source file).

The audio backend (Web Audio) is modelled at its interface boundary:
every scheduling call the code issues on an `AudioParam`
(`setValueAtTime`, `linearRampToValueAtTime`,
`exponentialRampToValueAtTime`, `cancelScheduledValues`) is logged, in
call order, in the parameter's `events` trace, and every connection of a
signal object into a parameter is logged in its `sources` list.  The
`.value` getter of a parameter is abstracted as the last explicitly set
value (by direct assignment or by `setValueAtTime`); mid-ramp
interpolated values are outside the model, and no claim depends on them.
The audio clock (`audiocontext.currentTime`) is an explicit `now : ℚ`
argument to every operation.  Dynamically typed JavaScript argument
positions are modelled by `JVal`.  A JavaScript runtime error (a method
call or property access on `null`/`undefined`) is modelled by an
operation returning `none`.
-/

namespace P5

/-- A JavaScript value in the argument positions the code dispatches on:
a number, a signal-like object exposing a `connect` capability
(identified by an id), or `undefined`.  Truthy non-number objects
without a `connect` capability never arise in the modelled call sites,
so they are not represented. -/
inductive JVal where
  | jnum (q : ℚ)
  | jsig (id : Nat)
  | jundef
deriving DecidableEq

/-- JavaScript `x || d` for an optional numeric argument: `undefined`
and `0` are falsy and give the default; any other number (negative
included) is kept. -/
def jsOr (x : Option ℚ) (d : ℚ) : ℚ :=
  match x with
  | none => d
  | some q => if q = 0 then d else q

/-- JavaScript `x || d` for an optional string argument: `undefined` and
the empty string are falsy. -/
def jsOrStr (x : Option String) (d : String) : String :=
  match x with
  | none => d
  | some t => if t = "" then d else t

/-- One scheduling call issued on a Web Audio `AudioParam`. -/
inductive ParamEvent where
  | setValueAtTime (v : JVal) (t : ℚ)
  | linearRampToValueAtTime (v : JVal) (t : ℚ)
  | exponentialRampToValueAtTime (v : JVal) (t : ℚ)
  | cancelScheduledValues (t : ℚ)
deriving DecidableEq

/-- A Web Audio `AudioParam`, at the interface boundary: the abstracted
current `.value`, the chronological log of scheduling calls issued on
it, and the ids of the signal objects connected into it. -/
structure AudioParam where
  value : ℚ
  events : List ParamEvent
  sources : List Nat
deriving DecidableEq

def AudioParam.setValueAtTime (p : AudioParam) (v : JVal) (t : ℚ) : AudioParam :=
  { p with
    value := match v with | .jnum q => q | _ => p.value
    events := p.events ++ [ParamEvent.setValueAtTime v t] }

def AudioParam.linearRampToValueAtTime (p : AudioParam) (v : JVal) (t : ℚ) : AudioParam :=
  { p with events := p.events ++ [ParamEvent.linearRampToValueAtTime v t] }

def AudioParam.exponentialRampToValueAtTime (p : AudioParam) (v : JVal) (t : ℚ) : AudioParam :=
  { p with events := p.events ++ [ParamEvent.exponentialRampToValueAtTime v t] }

def AudioParam.cancelScheduledValues (p : AudioParam) (t : ℚ) : AudioParam :=
  { p with events := p.events ++ [ParamEvent.cancelScheduledValues t] }

def AudioParam.connectSource (p : AudioParam) (id : Nat) : AudioParam :=
  { p with sources := p.sources ++ [id] }

/-- A Web Audio `GainNode` (only its `gain` parameter matters here). -/
structure GainNode where
  gain : AudioParam
deriving DecidableEq

/-- A Web Audio `OscillatorNode`: waveform type, frequency parameter,
whether it has been connected to the owner's output gain, and its
scheduled start/stop times (absolute, `none` when not scheduled). -/
structure OscNode where
  type : String
  frequency : AudioParam
  connectedToOutput : Bool
  startTime : Option ℚ
  stopTime : Option ℚ
deriving DecidableEq

/-- A fresh `audiocontext.createOscillator()` node: type `'sine'`,
frequency value 440, nothing scheduled, nothing connected. -/
def createOscillator : OscNode :=
  { type := "sine"
    frequency := { value := 440, events := [], sources := [] }
    connectedToOutput := false
    startTime := none
    stopTime := none }

/-- The `p5.Oscillator` object.  `oscillator` and the `panner` reference
are `Option`s because `dispose` nulls them (`output` is never nulled by
the oscillator's `dispose`).  `graveyard` collects generator nodes that
were replaced by a restart: in the browser they remain in the audio
graph until their scheduled stop fires, so their schedules stay
observable.  `freqMods` is the source's `_freqMods` array; since every
modelled object passed to `freq` has a `connect` capability, its entries
are signal ids.  The unused `input` gain, `connection`, `mathOps`,
`freqNode` and `oscMods` fields, and the sound-array registration, play
no part in the claims and are not modelled. -/
structure Oscillator where
  started : Bool
  f : ℚ
  oscillator : Option OscNode
  output : GainNode
  freqMods : List Nat
  panPosition : ℚ
  panner : Bool
  graveyard : List OscNode
deriving DecidableEq

/-- `p5.Oscillator(freq, type)` constructor at clock time `now`.  The
string/number argument-swapping prologue is resolved by typing the two
arguments.  `this.f = freq || 440.0`; the node's frequency gets
`setValueAtTime(this.f, now)`; the output gain is assigned `0.0` and
gets `setValueAtTime(0.0, now)`; the node is connected to the output. -/
def Oscillator.init (freq : Option ℚ) (type : Option String) (now : ℚ) : Oscillator :=
  let f := jsOr freq 440
  let node := createOscillator
  let node := { node with frequency := node.frequency.setValueAtTime (.jnum f) now }
  let node := { node with type := jsOrStr type "sine" }
  let output : GainNode :=
    { gain := AudioParam.setValueAtTime { value := 0, events := [], sources := [] } (.jnum 0) now }
  let node := { node with connectedToOutput := true }
  { started := false
    f := f
    oscillator := some node
    output := output
    freqMods := []
    panPosition := 0
    panner := true
    graveyard := [] }

/-- `p5.Oscillator.prototype.stop(time)`: when started, schedules the
generator's stop at `(time || 0) + now` and clears `started`
immediately; otherwise a no-op. -/
def Oscillator.stop (now : ℚ) (time : Option ℚ) (s : Oscillator) : Option Oscillator :=
  if s.started then
    match s.oscillator with
    | none => none
    | some node =>
        let t := jsOr time 0
        some { s with
          oscillator := some { node with stopTime := some (t + now) }
          started := false }
  else
    some s

/-- `p5.Oscillator.prototype.start(time, f)`.  When already started it
first calls `this.stop(now)` — passing the absolute clock time as the
seconds-from-now argument of `stop`.  Then (now unstarted) it creates a
fresh generator carrying the previous node's type, issues
`exponentialRampToValueAtTime(Math.abs(f || this.f), now)` on the new
node's frequency, connects it to the output, schedules its start at
`(time || 0) + now`, reconnects every `_freqMods` entry to the new
frequency parameter (in the source the loop checks for a `connect`
capability, which every modelled entry has), and sets `started`. -/
def Oscillator.start (now : ℚ) (time f : Option ℚ) (s : Oscillator) : Option Oscillator :=
  let s1? := if s.started then Oscillator.stop now (some now) s else some s
  match s1? with
  | none => none
  | some s1 =>
    if s1.started then some s1 else
      match s1.oscillator with
      | none => none
      | some old =>
        let freq := jsOr f s1.f
        let fresh := createOscillator
        let node : OscNode :=
          { fresh with
            type := old.type
            frequency :=
              { fresh.frequency.exponentialRampToValueAtTime (.jnum |freq|) now with
                sources := s1.freqMods }
            connectedToOutput := true
            startTime := some (jsOr time 0 + now) }
        some { s1 with
          oscillator := some node
          graveyard := s1.graveyard ++ [old]
          started := true }

/-- `p5.Oscillator.prototype.amp(vol, rampTime, tFromNow)`.  Numeric
`vol`: cancel at `now`, linear-ramp the current gain value to
`now + tFromNow`, linear-ramp `vol` to `now + tFromNow + rampTime`.
Signal `vol`: connect it into the gain parameter.  No argument: return
the gain parameter handle.  Never touches the generator node, so it
cannot fail. -/
def Oscillator.amp (now : ℚ) (vol : JVal) (rampTime tFromNow : Option ℚ) (s : Oscillator) :
    Oscillator × Option AudioParam :=
  match vol with
  | .jnum v =>
      let rt := jsOr rampTime 0
      let tfn := jsOr tFromNow 0
      let currentVol := s.output.gain.value
      let g := ((s.output.gain.cancelScheduledValues now).linearRampToValueAtTime
          (.jnum currentVol) (now + tfn)).linearRampToValueAtTime (.jnum v) (now + tfn + rt)
      ({ s with output := { gain := g } }, none)
  | .jsig id =>
      ({ s with output := { gain := s.output.gain.connectSource id } }, none)
  | .jundef => (s, some s.output.gain)

/-- `p5.Oscillator.prototype.freq(val, rampTime, tFromNow)`.  Numeric
`val`: record `this.f = val`, cancel at `now`, hold the current
frequency value with `setValueAtTime` at `now + tFromNow`, then ramp to
`val` at `tFromNow + rampTime + now` — exponentially when `val > 0`,
linearly otherwise.  Signal `val`: connect it into the frequency
parameter and push it on `_freqMods`.  No argument: return the frequency
parameter handle.  Every branch dereferences `this.oscillator`, so the
call fails on a disposed object. -/
def Oscillator.freq (now : ℚ) (val : JVal) (rampTime tFromNow : Option ℚ) (s : Oscillator) :
    Option (Oscillator × Option AudioParam) :=
  match val with
  | .jnum v =>
      match s.oscillator with
      | none => none
      | some node =>
          let rt := jsOr rampTime 0
          let tfn := jsOr tFromNow 0
          let currentFreq := node.frequency.value
          let p := (node.frequency.cancelScheduledValues now).setValueAtTime
            (.jnum currentFreq) (now + tfn)
          let p := if v > 0 then
              p.exponentialRampToValueAtTime (.jnum v) (tfn + rt + now)
            else
              p.linearRampToValueAtTime (.jnum v) (tfn + rt + now)
          some ({ s with f := v, oscillator := some { node with frequency := p } }, none)
  | .jsig id =>
      match s.oscillator with
      | none => none
      | some node =>
          some ({ s with
            oscillator := some { node with frequency := node.frequency.connectSource id }
            freqMods := s.freqMods ++ [id] }, none)
  | .jundef =>
      match s.oscillator with
      | none => none
      | some node => some (s, some node.frequency)

/-- `p5.Oscillator.prototype.setType(type)`: assigns the current
generator node's type (fails on a disposed object). -/
def Oscillator.setType (type : String) (s : Oscillator) : Option Oscillator :=
  match s.oscillator with
  | none => none
  | some node => some { s with oscillator := some { node with type := type } }

/-- `p5.Oscillator.prototype.pan(pval)`: stores the pan position and
forwards to the panning stage (external; fails when the panner
reference has been nulled by `dispose`). -/
def Oscillator.pan (pval : ℚ) (s : Oscillator) : Option Oscillator :=
  if s.panner then some { s with panPosition := pval } else none

/-- A release performed on an owned audio-graph node during teardown. -/
inductive ReleaseAction where
  | pannerDisconnect
  | oscillatorDisconnect
  | noiseDisconnect
  | outputDisconnect
deriving DecidableEq

/-- `p5.Oscillator.prototype.dispose()`: guarded by `this.oscillator`.
When present: `stop(now)`, `this.disconnect()` (which dereferences the
panner), `this.oscillator.disconnect()`, then null the panner and
generator references.  The `osc2` cascade concerns only the pulse
composite, which is not constructed here.  Returns the state and the
releases performed. -/
def Oscillator.dispose (now : ℚ) (s : Oscillator) : Option (Oscillator × List ReleaseAction) :=
  match s.oscillator with
  | none => some (s, [])
  | some _ =>
      match Oscillator.stop now (some now) s with
      | none => none
      | some s1 =>
          if s.panner then
            some ({ s1 with panner := false, oscillator := none },
              [ReleaseAction.pannerDisconnect, ReleaseAction.oscillatorDisconnect])
          else none

/-- A public oscillator operation, for reasoning over call sequences.
The operations not listed (`phase`, `connect`, `disconnect`,
`add`/`mult`/`scale`, the getters) issue no exponential-ramp scheduling
call in the source (`phase` issues only a linear ramp on the delay
line), so omitting them does not weaken the exponential-ramp safety
analysis. -/
inductive OscOp where
  | opStart (time f : Option ℚ)
  | opStop (time : Option ℚ)
  | opFreq (val : JVal) (rampTime tFromNow : Option ℚ)
  | opAmp (vol : JVal) (rampTime tFromNow : Option ℚ)
  | opSetType (type : String)
  | opPan (pval : ℚ)
  | opDispose
deriving DecidableEq

/-- One public operation applied at clock time `now`. -/
def oscStep (now : ℚ) (op : OscOp) (s : Oscillator) : Option Oscillator :=
  match op with
  | .opStart time f => Oscillator.start now time f s
  | .opStop time => Oscillator.stop now time s
  | .opFreq val rt tfn => (Oscillator.freq now val rt tfn s).map (fun r => r.1)
  | .opAmp vol rt tfn => some (Oscillator.amp now vol rt tfn s).1
  | .opSetType ty => Oscillator.setType ty s
  | .opPan pv => Oscillator.pan pv s
  | .opDispose => (Oscillator.dispose now s).map (fun r => r.1)

/-- Run a sequence of public operations, each with its own clock
reading. -/
def oscRun : List (ℚ × OscOp) → Oscillator → Option Oscillator
  | [], s => some s
  | (now, op) :: rest, s => (oscStep now op s).bind (oscRun rest)

/-- An event is harmless for exponential-ramp safety in the amended
sense: any exponential ramp it represents has a numeric, nonnegative
target. -/
def ParamEvent.expOk : ParamEvent → Bool
  | .exponentialRampToValueAtTime (.jnum q) _ => decide (0 ≤ q)
  | .exponentialRampToValueAtTime _ _ => false
  | _ => true

/-- An event is harmless in the strict sense of the claim: any
exponential ramp it represents has a strictly positive numeric
target. -/
def ParamEvent.expStrictOk : ParamEvent → Bool
  | .exponentialRampToValueAtTime (.jnum q) _ => decide (0 < q)
  | .exponentialRampToValueAtTime _ _ => false
  | _ => true

def AudioParam.expOk (p : AudioParam) : Bool :=
  p.events.all ParamEvent.expOk

def AudioParam.expStrictOk (p : AudioParam) : Bool :=
  p.events.all ParamEvent.expStrictOk

/-- Every exponential ramp ever issued on any parameter of this
oscillator (output gain, live generator frequency, or the frequency of
any replaced generator still in the graph) has a nonnegative target. -/
def Oscillator.expSafe (s : Oscillator) : Bool :=
  s.output.gain.expOk
    && (match s.oscillator with | none => true | some n => n.frequency.expOk)
    && s.graveyard.all (fun n => n.frequency.expOk)

/-- Strict version: every exponential ramp target is strictly
positive — the claim as stated. -/
def Oscillator.expStrictSafe (s : Oscillator) : Bool :=
  s.output.gain.expStrictOk
    && (match s.oscillator with | none => true | some n => n.frequency.expStrictOk)
    && s.graveyard.all (fun n => n.frequency.expStrictOk)

/-! ## The noise module -/

/-- Which of the three precomputed, shared noise buffers a reference
points at.  The buffer synthesis itself (white/pink/brown filters) is
not needed by any claim, so buffers are identified by their color. -/
inductive NoiseColor where
  | white
  | pink
  | brown
deriving DecidableEq

/-- A Web Audio `AudioBufferSourceNode` as used by the noise module:
assigned buffer (assignable to `null`), looping flag, connection to the
output gain, and scheduled start/stop times. -/
structure NoiseNode where
  buffer : Option NoiseColor
  loop : Bool
  connectedToOutput : Bool
  startTime : Option ℚ
  stopTime : Option ℚ
deriving DecidableEq

/-- The `p5.Noise` object.  `buffer`, `output` and the `panner`
reference are `Option`s/flags because `dispose` nulls them; `noise` is
`undefined` until the first `start`.  `graveyard` collects playback
nodes replaced by a restart. -/
structure Noise where
  started : Bool
  buffer : Option NoiseColor
  output : Option GainNode
  panner : Bool
  panPosition : ℚ
  noise : Option NoiseNode
  graveyard : List NoiseNode
deriving DecidableEq

/-- `p5.Noise(type)` constructor.  The `type` argument is ignored by the
constructor body; the buffer starts as the white buffer and the output
gain's value is assigned `0.5` directly (no scheduling call). -/
def Noise.init : Noise :=
  { started := false
    buffer := some NoiseColor.white
    output := some { gain := { value := 1/2, events := [], sources := [] } }
    panner := true
    panPosition := 0
    noise := none
    graveyard := [] }

/-- `p5.Noise.prototype.stop()`: reads its own clock, and — guarded by
`this.noise` — stops the playback node at `now` and clears `started`.
Any argument passed by a caller is ignored (the function declares no
parameter). -/
def Noise.stop (now : ℚ) (s : Noise) : Noise :=
  match s.noise with
  | none => s
  | some node =>
      { s with noise := some { node with stopTime := some now }, started := false }

/-- `p5.Noise.prototype.start()`: stops first when started, then
creates a looping buffer-source bound to the current `this.buffer`,
connects it to the output (failing if the output reference was nulled
by `dispose`), and starts it at `now`.  The function declares no
parameter, so any start-time argument passed by a caller (as
`setType` does) is ignored and the node starts at the current clock
time. -/
def Noise.start (now : ℚ) (s : Noise) : Option Noise :=
  let s1 := if s.started then Noise.stop now s else s
  match s1.output with
  | none => none
  | some _ =>
      let node : NoiseNode :=
        { buffer := s1.buffer
          loop := true
          connectedToOutput := true
          startTime := some now
          stopTime := none }
      some { s1 with
        noise := some node
        graveyard := s1.graveyard ++ s1.noise.toList
        started := true }

/-- `p5.Noise.prototype.setType(type)`: switch on the type string,
defaulting to the white buffer; then, when started, `this.stop(now)`
and `this.start(now + .01)` — both arguments are ignored because
`Noise.stop`/`Noise.start` declare no parameters, so the restart
happens at the current clock time, not 10ms later. -/
def Noise.setType (now : ℚ) (type : Option String) (s : Noise) : Option Noise :=
  let buf : NoiseColor :=
    match type with
    | some "white" => .white
    | some "pink" => .pink
    | some "brown" => .brown
    | _ => .white
  let s1 := { s with buffer := some buf }
  if s1.started then
    Noise.start now (Noise.stop now s1)
  else
    some s1

/-- `p5.Noise.prototype.amp(vol, rampTime, tFromNow)`: no argument
dispatch of any kind — it always cancels at `now` and issues the two
linear ramps, at `now + tFromNow + .001` (holding the current gain
value) and `now + tFromNow + rampTime + .001` (to `vol`, whatever
JavaScript value it is), and returns nothing.  Fails when the output
reference was nulled by `dispose`. -/
def Noise.amp (now : ℚ) (vol : JVal) (rampTime tFromNow : Option ℚ) (s : Noise) :
    Option (Noise × Option AudioParam) :=
  match s.output with
  | none => none
  | some out =>
      let rt := jsOr rampTime 0
      let tfn := jsOr tFromNow 0
      let currentVol := out.gain.value
      let g := ((out.gain.cancelScheduledValues now).linearRampToValueAtTime
          (.jnum currentVol) (now + tfn + 1/1000)).linearRampToValueAtTime
          vol (now + tfn + rt + 1/1000)
      some ({ s with output := some { gain := g } }, none)

/-- `p5.Noise.prototype.dispose()`: every access is guarded (`noise`,
`output`, `panner`), then all ownership references are nulled.  It can
never fail; it returns the state and the releases performed. -/
def Noise.dispose (now : ℚ) (s : Noise) : Noise × List ReleaseAction :=
  let (s1, a1) :=
    match s.noise with
    | none => (s, ([] : List ReleaseAction))
    | some node =>
        (Noise.stop now { s with noise := some { node with connectedToOutput := false } },
          [ReleaseAction.noiseDisconnect])
  let a2 := match s1.output with
    | none => a1
    | some _ => a1 ++ [ReleaseAction.outputDisconnect]
  let a3 := if s1.panner then a2 ++ [ReleaseAction.pannerDisconnect] else a2
  ({ s1 with output := none, panner := false, buffer := none, noise := none }, a3)

/-! ## Sample states used by the closed theorems and witnesses -/

/-- A freshly constructed oscillator (no arguments, clock 0). -/
def osc0 : Oscillator := Oscillator.init none none 0

/-- The generator node owned by `osc0`. -/
def osc0node : OscNode :=
  { type := "sine"
    frequency := { value := 440, events := [ParamEvent.setValueAtTime (.jnum 440) 0], sources := [] }
    connectedToOutput := true
    startTime := none
    stopTime := none }

/-- `osc0` after `start()` at clock 0. -/
def oscStarted : Oscillator := (Oscillator.start 0 none none osc0).getD osc0

/-- The generator node owned by `oscStarted`. -/
def oscStartedNode : OscNode :=
  { type := "sine"
    frequency :=
      { value := 440
        events := [ParamEvent.exponentialRampToValueAtTime (.jnum 440) 0]
        sources := [] }
    connectedToOutput := true
    startTime := some 0
    stopTime := none }

/-- A fresh noise source after `start()` at clock 0. -/
def noiseStarted : Noise := (Noise.start 0 Noise.init).getD Noise.init

/-- The oscillator run for C1 that restarts via a second `start()` at
clock 1: construct, connect signal 7 to the frequency, start at 0,
start again at 1. -/
def c1restart : Option Oscillator :=
  oscRun [(0, .opFreq (.jsig 7) none none), (0, .opStart none none), (1, .opStart none none)]
    (Oscillator.init none none 0)

/-- The same history but with an explicit `stop()` before the second
`start()`, both at clock 1. -/
def c1stopstart : Option Oscillator :=
  oscRun [(0, .opFreq (.jsig 7) none none), (0, .opStart none none),
      (1, .opStop none), (1, .opStart none none)]
    (Oscillator.init none none 0)

/-- The C8 run: a Noise source started at clock 0, then `setType('pink')`
at clock 5. -/
def c8run : Option Noise :=
  (Noise.start 0 Noise.init).bind (Noise.setType 5 (some "pink"))

/-- The run used by the C5 witness: `freq(440)` then `start()` from a
fresh oscillator. -/
def c5run : Option Oscillator :=
  oscRun [(0, .opFreq (.jnum 440) none none), (0, .opStart none none)]
    (Oscillator.init none none 0)

/-- The state reached by `c5run`. -/
def c5witState : Oscillator := c5run.getD (Oscillator.init none none 0)

lemma expSafe_init (freq : Option ℚ) (type : Option String) (now : ℚ) :
    (Oscillator.init freq type now).expSafe = true := by
  simp [Oscillator.init, createOscillator, AudioParam.setValueAtTime,
    Oscillator.expSafe, AudioParam.expOk, ParamEvent.expOk]

lemma expSafe_oscStep {now : ℚ} {op : OscOp} {s s' : Oscillator}
    (h : s.expSafe = true) (hstep : oscStep now op s = some s') :
    s'.expSafe = true := by
  rcases s with ⟨st, f0, osc, out, fm, pp, pan, gy⟩
  simp only [Oscillator.expSafe, Bool.and_eq_true] at h
  obtain ⟨⟨hgain, hnode⟩, hgrave⟩ := h
  cases op with
  | opStart time f =>
      cases st <;> rcases osc with _ | node <;>
        simp only [oscStep, Oscillator.start, Oscillator.stop, createOscillator,
          AudioParam.exponentialRampToValueAtTime, ite_true, ite_false,
          Bool.false_eq_true, Bool.true_eq_false, if_true, if_false,
          Option.some.injEq, reduceCtorEq, List.nil_append] at hstep <;>
        subst hstep <;>
        simp_all [Oscillator.expSafe, AudioParam.expOk, ParamEvent.expOk,
          List.all_append, abs_nonneg] <;>
        try assumption
  | opStop time =>
      cases st <;> rcases osc with _ | node <;>
        simp only [oscStep, Oscillator.stop, ite_true, ite_false, Bool.false_eq_true,
          Bool.true_eq_false, Option.some.injEq, reduceCtorEq] at hstep <;>
        subst hstep <;>
        simp_all [Oscillator.expSafe, AudioParam.expOk] <;>
        try assumption
  | opFreq val rt tfn =>
      rcases val with v | id | _ <;> rcases osc with _ | node <;>
        simp only [oscStep, Oscillator.freq, AudioParam.cancelScheduledValues,
          AudioParam.setValueAtTime, AudioParam.exponentialRampToValueAtTime,
          AudioParam.linearRampToValueAtTime, AudioParam.connectSource,
          Option.map_some', Option.map_none', Option.some.injEq, reduceCtorEq] at hstep
      · by_cases hv : v > 0
        · simp only [hv, ite_true] at hstep
          subst hstep
          simp_all [Oscillator.expSafe, AudioParam.expOk, ParamEvent.expOk,
            List.all_append, le_of_lt hv] <;>
          try assumption
        · simp only [hv, ite_false] at hstep
          subst hstep
          simp_all [Oscillator.expSafe, AudioParam.expOk, ParamEvent.expOk,
            List.all_append] <;>
          try assumption
      · subst hstep
        simp_all [Oscillator.expSafe, AudioParam.expOk] <;>
        try assumption
      · subst hstep
        simp_all [Oscillator.expSafe, AudioParam.expOk] <;>
        try assumption
  | opAmp vol rt tfn =>
      rcases vol with v | id | _ <;>
        simp only [oscStep, Oscillator.amp, AudioParam.cancelScheduledValues,
          AudioParam.linearRampToValueAtTime, AudioParam.connectSource,
          Option.some.injEq] at hstep <;>
        subst hstep <;>
        simp_all [Oscillator.expSafe, AudioParam.expOk, ParamEvent.expOk,
          List.all_append] <;>
        try assumption
  | opSetType ty =>
      rcases osc with _ | node <;>
        simp only [oscStep, Oscillator.setType, Option.some.injEq, reduceCtorEq] at hstep <;>
        subst hstep <;>
        simp_all [Oscillator.expSafe, AudioParam.expOk] <;>
        try assumption
  | opPan pv =>
      cases pan <;>
        simp only [oscStep, Oscillator.pan, ite_true, ite_false, Bool.false_eq_true,
          Bool.true_eq_false, Option.some.injEq, reduceCtorEq] at hstep <;>
        subst hstep <;>
        simp_all [Oscillator.expSafe, AudioParam.expOk] <;>
        try assumption
  | opDispose =>
      cases st <;> rcases osc with _ | node <;> cases pan <;>
        simp only [oscStep, Oscillator.dispose, Oscillator.stop, ite_true, ite_false,
          Bool.false_eq_true, Bool.true_eq_false, Option.map_some', Option.map_none',
          Option.some.injEq, reduceCtorEq] at hstep <;>
        subst hstep <;>
        simp_all [Oscillator.expSafe, AudioParam.expOk] <;>
        try assumption


lemma expSafe_oscRun {ops : List (ℚ × OscOp)} {s s' : Oscillator}
    (h : s.expSafe = true) (hrun : oscRun ops s = some s') :
    s'.expSafe = true := by
  induction ops generalizing s with
  | nil =>
      simp only [oscRun, Option.some.injEq] at hrun
      subst hrun
      exact h
  | cons p rest ih =>
      obtain ⟨now, op⟩ := p
      simp only [oscRun, Option.bind_eq_some] at hrun
      obtain ⟨s1, hstep, hrest⟩ := hrun
      exact ih (expSafe_oscStep h hstep) hrest

/-! ## Claims -/

/-- C10 (amended): immediately after construction and before any `amp()`
call, the Oscillator's output gain value is 0 but the Noise source's
output gain value is 0.5. -/
theorem noise_initial_gain_is_half :
    ∀ (freq : Option ℚ) (type : Option String) (now : ℚ),
      (Oscillator.init freq type now).output.gain.value = 0 ∧
      Noise.init.output = some { gain := { value := 1/2, events := [], sources := [] } } := by
  intro freq type now
  exact ⟨rfl, rfl⟩

/-- C10 counterexample: a freshly constructed Noise source's output gain
value is 1/2, not 0 as the claim states. -/
theorem noise_initial_gain_not_zero :
    (Noise.init.output.map (fun g => g.gain.value)) = some (1/2) ∧ ((1 : ℚ)/2) ≠ 0 := by
  exact ⟨rfl, by norm_num⟩

/-- C2 (amended): `stop(timeOffset)` is a no-op when the oscillator is
not started; when started it schedules the generator's stop at
`now + timeOffset` (a missing or zero offset defaulting to 0, negative
offsets not clamped) and clears `started` immediately upon return. -/
theorem stop_schedules_and_clears_started :
    ∀ (s : Oscillator) (now : ℚ) (time : Option ℚ),
      (s.started = false → Oscillator.stop now time s = some s) ∧
      (∀ node, s.started = true → s.oscillator = some node →
        ∃ s', Oscillator.stop now time s = some s' ∧
          s'.started = false ∧
          s'.oscillator = some { node with stopTime := some (jsOr time 0 + now) }) := by
  intro s now time
  constructor
  · intro h
    simp [Oscillator.stop, h]
  · intro node hs ho
    refine ⟨{ s with
        oscillator := some { node with stopTime := some (jsOr time 0 + now) }
        started := false }, ?_, rfl, rfl⟩
    simp [Oscillator.stop, hs, ho]

theorem stop_schedules_and_clears_started_witness :
    osc0.started = false ∧ Oscillator.stop 5 (some 3) osc0 = some osc0 ∧
    oscStarted.started = true ∧ oscStarted.oscillator = some oscStartedNode ∧
    (∃ s', Oscillator.stop 10 (some (-1)) oscStarted = some s' ∧
      s'.started = false ∧
      s'.oscillator = some { oscStartedNode with stopTime := some 9 }) := by
  refine ⟨by with_unfolding_all rfl,
    (stop_schedules_and_clears_started osc0 5 (some 3)).1 (by with_unfolding_all rfl),
    by with_unfolding_all rfl, by with_unfolding_all rfl, ?_⟩
  have h9 : jsOr (some (-1)) 0 + 10 = (9 : ℚ) := by with_unfolding_all rfl
  have h := (stop_schedules_and_clears_started oscStarted 10 (some (-1))).2
    oscStartedNode (by with_unfolding_all rfl) (by with_unfolding_all rfl)
  rw [h9] at h
  exact h

/-- C2 counterexample: with a negative offset the claim's clamped time
`now + max(0, timeOffset)` is wrong — `stop(-1)` at clock 10 schedules
the stop at 9, not at 10. -/
theorem stop_negative_offset_not_clamped :
    ((Oscillator.stop 10 (some (-1)) oscStarted).bind
       (fun s => s.oscillator.map OscNode.stopTime)) = some (some 9) ∧
    (9 : ℚ) ≠ 10 + max 0 (-1) := by
  constructor
  · with_unfolding_all rfl
  · norm_num

/-- C6 (amended): `start(timeOffset, frequencyOverride)` on a stopped
oscillator creates a fresh generator carrying the current waveform type,
issues an exponential ramp to `|frequencyOverride or frequencyHz|`
anchored at the current clock time, reconnects the recorded frequency
modulators, connects the unit to the output gain, and schedules the
unit's start at `now + timeOffset` (missing timeOffset defaulting to 0,
negative offsets not clamped to 0). -/
theorem start_creates_fresh_generator :
    ∀ (s : Oscillator) (old : OscNode) (now : ℚ) (time f : Option ℚ),
      s.started = false → s.oscillator = some old →
      ∃ s' node, Oscillator.start now time f s = some s' ∧
        s'.oscillator = some node ∧
        s'.started = true ∧
        node.type = old.type ∧
        node.frequency.events
          = [ParamEvent.exponentialRampToValueAtTime (.jnum |jsOr f s.f|) now] ∧
        node.frequency.sources = s.freqMods ∧
        node.connectedToOutput = true ∧
        node.startTime = some (jsOr time 0 + now) ∧
        s'.graveyard = s.graveyard ++ [old] := by
  intro s old now time f hs ho
  rcases s with ⟨st, f0, osc, out, fm, pp, pan, gy⟩
  dsimp only at hs ho
  subst hs
  subst ho
  exact ⟨_, _, rfl, rfl, rfl, rfl, rfl, rfl, rfl, rfl, rfl⟩

theorem start_creates_fresh_generator_witness :
    osc0.started = false ∧ osc0.oscillator = some osc0node ∧
    (∃ s' node, Oscillator.start 10 (some (-1)) none osc0 = some s' ∧
      s'.oscillator = some node ∧
      s'.started = true ∧
      node.type = osc0node.type ∧
      node.frequency.events
        = [ParamEvent.exponentialRampToValueAtTime (.jnum |jsOr none osc0.f|) 10] ∧
      node.frequency.sources = osc0.freqMods ∧
      node.connectedToOutput = true ∧
      node.startTime = some (jsOr (some (-1)) 0 + 10) ∧
      s'.graveyard = osc0.graveyard ++ [osc0node]) := by
  exact ⟨by with_unfolding_all rfl, by with_unfolding_all rfl,
    start_creates_fresh_generator osc0 osc0node 10 (some (-1)) none
      (by with_unfolding_all rfl) (by with_unfolding_all rfl)⟩

/-- C6 counterexample: the claim's scheduled start time
`now + max(0, timeOffset)` is wrong for negative offsets — `start(-1)`
at clock 10 schedules the generator's start at 9, not at 10. -/
theorem start_negative_offset_not_clamped :
    ((Oscillator.start 10 (some (-1)) none osc0).bind
       (fun s => s.oscillator.map OscNode.startTime)) = some (some 9) ∧
    (9 : ℚ) ≠ 10 + max 0 (-1) := by
  constructor
  · with_unfolding_all rfl
  · norm_num

/-- C4: numeric `freq(val, rampTime, delay)` records `val` as the new
base frequency `this.f`, cancels pending changes at `now`, holds the
current frequency value at `now + delay`, then ramps to `val` at
`delay + rampTime + now` — exponentially when `val > 0` and linearly
when `val ≤ 0`; and numeric `amp` appends only linear ramps, never an
exponential one. -/
theorem freq_ramp_exponential_iff_positive :
    ∀ (s : Oscillator) (node : OscNode) (now v : ℚ) (rampTime tFromNow : Option ℚ),
      s.oscillator = some node →
      (∃ s', Oscillator.freq now (.jnum v) rampTime tFromNow s = some (s', none) ∧
        s'.f = v ∧
        ∃ node', s'.oscillator = some node' ∧
          node'.frequency.events = node.frequency.events ++
            [ParamEvent.cancelScheduledValues now,
             ParamEvent.setValueAtTime (.jnum node.frequency.value) (now + jsOr tFromNow 0),
             if v > 0 then
               ParamEvent.exponentialRampToValueAtTime (.jnum v)
                 (jsOr tFromNow 0 + jsOr rampTime 0 + now)
             else
               ParamEvent.linearRampToValueAtTime (.jnum v)
                 (jsOr tFromNow 0 + jsOr rampTime 0 + now)]) ∧
      (∀ (vol : ℚ) (rt tfn : Option ℚ),
        (Oscillator.amp now (.jnum vol) rt tfn s).1.output.gain.events =
          s.output.gain.events ++
            [ParamEvent.cancelScheduledValues now,
             ParamEvent.linearRampToValueAtTime (.jnum s.output.gain.value)
               (now + jsOr tfn 0),
             ParamEvent.linearRampToValueAtTime (.jnum vol)
               (now + jsOr tfn 0 + jsOr rt 0)]) := by
  intro s node now v rampTime tFromNow ho
  rcases s with ⟨st, f0, osc, out, fm, pp, pan, gy⟩
  dsimp only at ho
  subst ho
  constructor
  · refine ⟨_, rfl, rfl, _, rfl, ?_⟩
    by_cases hv : v > 0 <;>
      simp [hv, AudioParam.cancelScheduledValues, AudioParam.setValueAtTime,
        AudioParam.exponentialRampToValueAtTime, AudioParam.linearRampToValueAtTime]
  · intro vol rt tfn
    simp [Oscillator.amp, AudioParam.cancelScheduledValues,
      AudioParam.linearRampToValueAtTime]

theorem freq_ramp_exponential_iff_positive_witness :
    osc0.oscillator = some osc0node ∧
    ((∃ s', Oscillator.freq 2 (.jnum 440) (some 3) (some 1) osc0 = some (s', none) ∧
        s'.f = 440 ∧
        ∃ node', s'.oscillator = some node' ∧
          node'.frequency.events = osc0node.frequency.events ++
            [ParamEvent.cancelScheduledValues 2,
             ParamEvent.setValueAtTime (.jnum osc0node.frequency.value) (2 + jsOr (some 1) 0),
             if (440 : ℚ) > 0 then
               ParamEvent.exponentialRampToValueAtTime (.jnum 440)
                 (jsOr (some 1) 0 + jsOr (some 3) 0 + 2)
             else
               ParamEvent.linearRampToValueAtTime (.jnum 440)
                 (jsOr (some 1) 0 + jsOr (some 3) 0 + 2)]) ∧
      (∀ (vol : ℚ) (rt tfn : Option ℚ),
        (Oscillator.amp 2 (.jnum vol) rt tfn osc0).1.output.gain.events =
          osc0.output.gain.events ++
            [ParamEvent.cancelScheduledValues 2,
             ParamEvent.linearRampToValueAtTime (.jnum osc0.output.gain.value)
               (2 + jsOr tfn 0),
             ParamEvent.linearRampToValueAtTime (.jnum vol)
               (2 + jsOr tfn 0 + jsOr rt 0)])) := by
  exact ⟨by with_unfolding_all rfl,
    freq_ramp_exponential_iff_positive osc0 osc0node 2 440 (some 3) (some 1)
      (by with_unfolding_all rfl)⟩

/-- C3 (amended): numeric `amp(v, rampTime, delay)` cancels the output
gain's scheduled changes at the current clock time, re-asserts the
gain's current value as a hold point, and ramps linearly to `v`.  For
the Oscillator the hold point is at exactly `now + delay` and `v` is
reached at exactly `now + delay + rampTime`; for the Noise source both
times carry an extra `+0.001` offset (hold at `now + delay + 0.001`,
target reached at `now + delay + rampTime + 0.001`). -/
theorem amp_cancel_hold_ramp :
    ∀ (now v : ℚ) (rampTime tFromNow : Option ℚ) (s : Oscillator) (n : Noise) (out : GainNode),
      n.output = some out →
      ((Oscillator.amp now (.jnum v) rampTime tFromNow s).1.output.gain.events =
        s.output.gain.events ++
          [ParamEvent.cancelScheduledValues now,
           ParamEvent.linearRampToValueAtTime (.jnum s.output.gain.value)
             (now + jsOr tFromNow 0),
           ParamEvent.linearRampToValueAtTime (.jnum v)
             (now + jsOr tFromNow 0 + jsOr rampTime 0)]) ∧
      (∃ n' g, Noise.amp now (.jnum v) rampTime tFromNow n = some (n', none) ∧
        n'.output = some g ∧
        g.gain.events = out.gain.events ++
          [ParamEvent.cancelScheduledValues now,
           ParamEvent.linearRampToValueAtTime (.jnum out.gain.value)
             (now + jsOr tFromNow 0 + 1/1000),
           ParamEvent.linearRampToValueAtTime (.jnum v)
             (now + jsOr tFromNow 0 + jsOr rampTime 0 + 1/1000)]) := by
  intro now v rampTime tFromNow s n out hout
  rcases n with ⟨nst, nbuf, nout, npan, npp, nnoise, ngy⟩
  dsimp only at hout
  subst hout
  constructor
  · simp [Oscillator.amp, AudioParam.cancelScheduledValues,
      AudioParam.linearRampToValueAtTime]
  · refine ⟨_, _, rfl, rfl, ?_⟩
    simp [AudioParam.cancelScheduledValues, AudioParam.linearRampToValueAtTime]

theorem amp_cancel_hold_ramp_witness :
    Noise.init.output = some { gain := { value := 1/2, events := [], sources := [] } } ∧
    ((Oscillator.amp 0 (.jnum (4/5)) (some 2) (some 1) osc0).1.output.gain.events =
      osc0.output.gain.events ++
        [ParamEvent.cancelScheduledValues 0,
         ParamEvent.linearRampToValueAtTime (.jnum osc0.output.gain.value)
           (0 + jsOr (some 1) 0),
         ParamEvent.linearRampToValueAtTime (.jnum (4/5))
           (0 + jsOr (some 1) 0 + jsOr (some 2) 0)]) ∧
    (∃ n' g, Noise.amp 0 (.jnum (4/5)) (some 2) (some 1) Noise.init = some (n', none) ∧
      n'.output = some g ∧
      g.gain.events =
        ({ gain := { value := 1/2, events := [], sources := [] } : GainNode }).gain.events ++
          [ParamEvent.cancelScheduledValues 0,
           ParamEvent.linearRampToValueAtTime
             (.jnum ({ gain := { value := 1/2, events := [], sources := [] } : GainNode }).gain.value)
             (0 + jsOr (some 1) 0 + 1/1000),
           ParamEvent.linearRampToValueAtTime (.jnum (4/5))
             (0 + jsOr (some 1) 0 + jsOr (some 2) 0 + 1/1000)]) := by
  exact ⟨by with_unfolding_all rfl,
    amp_cancel_hold_ramp 0 (4/5) (some 2) (some 1) osc0 Noise.init
      { gain := { value := 1/2, events := [], sources := [] } } (by with_unfolding_all rfl)⟩

/-- C3 counterexample: on the Noise source, `amp(0.8, 2, 1)` at clock 0
holds the prior value until `1.001` and reaches `0.8` at `3.001` — not
at exactly `now + delay = 1` and `now + delay + rampTime = 3` as the
claim states for the Noise source. -/
theorem noise_amp_offset_by_one_ms :
    ((Noise.amp 0 (.jnum (4/5)) (some 2) (some 1) Noise.init).bind
       (fun r => r.1.output.map (fun g => g.gain.events))) =
      some [ParamEvent.cancelScheduledValues 0,
        ParamEvent.linearRampToValueAtTime (.jnum (1/2)) (1001/1000),
        ParamEvent.linearRampToValueAtTime (.jnum (4/5)) (3001/1000)] ∧
    (1001/1000 : ℚ) ≠ 0 + 1 ∧ (3001/1000 : ℚ) ≠ 0 + 1 + 2 := by
  refine ⟨by with_unfolding_all rfl, by norm_num, by norm_num⟩

/-- C7 (amended): the Oscillator's `amp` and `freq` dispatch on their
argument — a signal-like object is connected into the parameter (and
`freq` additionally records it in `_freqMods`) with no ramp scheduled,
and a missing argument schedules nothing and returns the live parameter
handle.  The Noise source's `amp` has no such dispatch: for every
argument it runs the numeric scheduling path (passing the raw argument
as the second ramp's target) and never returns the parameter handle. -/
theorem amp_freq_argument_dispatch :
    ∀ (now : ℚ) (id : Nat) (rampTime tFromNow : Option ℚ) (s : Oscillator) (node : OscNode)
      (n : Noise) (out : GainNode) (vol : JVal),
      s.oscillator = some node → n.output = some out →
      ((Oscillator.amp now (.jsig id) rampTime tFromNow s).1.output.gain.sources
          = s.output.gain.sources ++ [id] ∧
        (Oscillator.amp now (.jsig id) rampTime tFromNow s).1.output.gain.events
          = s.output.gain.events ∧
        (Oscillator.amp now (.jsig id) rampTime tFromNow s).2 = none) ∧
      (Oscillator.amp now .jundef rampTime tFromNow s = (s, some s.output.gain)) ∧
      (∃ s', Oscillator.freq now (.jsig id) rampTime tFromNow s = some (s', none) ∧
        s'.freqMods = s.freqMods ++ [id] ∧
        ∃ node', s'.oscillator = some node' ∧
          node'.frequency.sources = node.frequency.sources ++ [id] ∧
          node'.frequency.events = node.frequency.events) ∧
      (Oscillator.freq now .jundef rampTime tFromNow s = some (s, some node.frequency)) ∧
      (∃ n', Noise.amp now vol rampTime tFromNow n = some (n', none) ∧
        ∃ g, n'.output = some g ∧
          g.gain.events = out.gain.events ++
            [ParamEvent.cancelScheduledValues now,
             ParamEvent.linearRampToValueAtTime (.jnum out.gain.value)
               (now + jsOr tFromNow 0 + 1/1000),
             ParamEvent.linearRampToValueAtTime vol
               (now + jsOr tFromNow 0 + jsOr rampTime 0 + 1/1000)]) := by
  intro now id rampTime tFromNow s node n out vol ho hout
  rcases s with ⟨st, f0, osc, sout, fm, pp, pan, gy⟩
  rcases n with ⟨nst, nbuf, nout, npan, npp, nnoise, ngy⟩
  dsimp only at ho hout
  subst ho
  subst hout
  refine ⟨⟨?_, ?_, rfl⟩, rfl, ⟨_, rfl, rfl, _, rfl, rfl, rfl⟩, rfl, ⟨_, rfl, _, rfl, ?_⟩⟩
  · simp [Oscillator.amp, AudioParam.connectSource]
  · simp [Oscillator.amp, AudioParam.connectSource]
  · simp [AudioParam.cancelScheduledValues, AudioParam.linearRampToValueAtTime]

theorem amp_freq_argument_dispatch_witness :
    osc0.oscillator = some osc0node ∧
    Noise.init.output = some { gain := { value := 1/2, events := [], sources := [] } } ∧
    (((Oscillator.amp 3 (.jsig 7) none none osc0).1.output.gain.sources
        = osc0.output.gain.sources ++ [7] ∧
      (Oscillator.amp 3 (.jsig 7) none none osc0).1.output.gain.events
        = osc0.output.gain.events ∧
      (Oscillator.amp 3 (.jsig 7) none none osc0).2 = none) ∧
    (Oscillator.amp 3 .jundef none none osc0 = (osc0, some osc0.output.gain)) ∧
    (∃ s', Oscillator.freq 3 (.jsig 7) none none osc0 = some (s', none) ∧
      s'.freqMods = osc0.freqMods ++ [7] ∧
      ∃ node', s'.oscillator = some node' ∧
        node'.frequency.sources = osc0node.frequency.sources ++ [7] ∧
        node'.frequency.events = osc0node.frequency.events) ∧
    (Oscillator.freq 3 .jundef none none osc0 = some (osc0, some osc0node.frequency)) ∧
    (∃ n', Noise.amp 3 .jundef none none Noise.init = some (n', none) ∧
      ∃ g, n'.output = some g ∧
        g.gain.events =
          ({ gain := { value := 1/2, events := [], sources := [] } : GainNode }).gain.events ++
            [ParamEvent.cancelScheduledValues 3,
             ParamEvent.linearRampToValueAtTime
               (.jnum ({ gain := { value := 1/2, events := [], sources := [] } : GainNode }).gain.value)
               (3 + jsOr none 0 + 1/1000),
             ParamEvent.linearRampToValueAtTime .jundef
               (3 + jsOr none 0 + jsOr none 0 + 1/1000)])) := by
  exact ⟨by with_unfolding_all rfl, by with_unfolding_all rfl,
    amp_freq_argument_dispatch 3 7 none none osc0 osc0node Noise.init
      { gain := { value := 1/2, events := [], sources := [] } } .jundef
      (by with_unfolding_all rfl) (by with_unfolding_all rfl)⟩

/-- C7 counterexample: `amp()` with no argument on a Noise source does
not return the gain parameter handle (it returns nothing) and does not
schedule nothing — it issues three scheduling calls, the second ramp
targeting the undefined argument itself. -/
theorem noise_amp_no_dispatch :
    ((Noise.amp 0 .jundef none none Noise.init).map
       (fun r => (r.2, r.1.output.map (fun g => g.gain.events)))) =
      some (none,
        some [ParamEvent.cancelScheduledValues 0,
          ParamEvent.linearRampToValueAtTime (.jnum (1/2)) (1/1000),
          ParamEvent.linearRampToValueAtTime .jundef (1/1000)]) := by
  with_unfolding_all rfl

/-- C1 (code bug): `start()` on a started oscillator is NOT equivalent
to `stop(); start()`.  Both paths leave `started = true`, one referenced
generator whose frequency parameter has the recorded modulator (signal
7) reconnected — but the restart path schedules the discarded
generator's stop at clock 2, because `start` passes the absolute
current time (1) to `stop`'s seconds-from-now parameter, while
`stop(); start()` schedules it at clock 1; so the discarded unit keeps
producing for another `now` seconds after a restart. -/
theorem restart_not_equivalent_to_stop_start :
    (c1restart.map (fun s =>
      (s.started, s.oscillator.map (fun nd => nd.frequency.sources),
        s.graveyard.map OscNode.stopTime)))
      = some (true, some [7], [none, some 2]) ∧
    (c1stopstart.map (fun s => s.graveyard.map OscNode.stopTime))
      = some [none, some 1] ∧
    c1restart ≠ c1stopstart := by
  refine ⟨by with_unfolding_all rfl, by with_unfolding_all rfl, ?_⟩
  with_unfolding_all decide

/-- C8 (code bug): `setType('pink')` on a started Noise source swaps
`colorBuffer` to the pink buffer and stops the old playback unit at the
current clock (5), but the new playback unit starts at the current
clock (5) as well, NOT 10ms later: the source passes `now + .01` to
`Noise.start`, which declares no parameter and ignores it.  No two
units overlap (the old unit's stop and the new unit's start coincide at
5). -/
theorem setType_restart_ignores_delay :
    (c8run.map (fun s =>
      (s.buffer, s.noise.map NoiseNode.startTime, s.noise.map NoiseNode.buffer,
        s.graveyard.map NoiseNode.stopTime)))
      = some (some NoiseColor.pink, some (some (5 : ℚ)), some (some NoiseColor.pink),
          [some (5 : ℚ)]) ∧
    some ((5 : ℚ) + 1/100) ≠ some (5 : ℚ) := by
  refine ⟨by with_unfolding_all rfl, ?_⟩
  simp only [ne_eq, Option.some.injEq]
  norm_num

/-- C9: `dispose()` is idempotent for both the Oscillator and the Noise
source: once a first `dispose()` has cleared the owned references, a
second `dispose()` succeeds, changes nothing, and performs no release
action a second time. -/
theorem dispose_idempotent :
    (∀ (s s1 : Oscillator) (acts : List ReleaseAction) (now now' : ℚ),
      Oscillator.dispose now s = some (s1, acts) →
      Oscillator.dispose now' s1 = some (s1, [])) ∧
    (∀ (n : Noise) (now now' : ℚ),
      Noise.dispose now' (Noise.dispose now n).1 = ((Noise.dispose now n).1, [])) := by
  constructor
  · intro s s1 acts now now' h
    have h1 : s1.oscillator = none := by
      unfold Oscillator.dispose at h
      rcases hosc : s.oscillator with _ | node
      · rw [hosc] at h
        simp at h
        rw [← h.1, hosc]
      · rw [hosc] at h
        rcases hstop : Oscillator.stop now (some now) s with _ | s2
        · rw [hstop] at h
          simp at h
        · rw [hstop] at h
          by_cases hpan : s.panner
          · simp [hpan] at h
            rw [← h.1]
          · simp [hpan] at h
    unfold Oscillator.dispose
    rw [h1]
  · intro n now now'
    rcases n with ⟨nst, nbuf, nout, npan, npp, nnoise, ngy⟩
    rcases nnoise with _ | nd <;>
      simp [Noise.dispose, Noise.stop]

theorem dispose_idempotent_witness :
    (∃ s1 acts, Oscillator.dispose 3 oscStarted = some (s1, acts) ∧
      Oscillator.dispose 4 s1 = some (s1, [])) ∧
    Noise.dispose 4 (Noise.dispose 3 noiseStarted).1 = ((Noise.dispose 3 noiseStarted).1, []) := by
  constructor
  · refine ⟨(Oscillator.dispose 3 oscStarted).getD (oscStarted, []) |>.1,
      (Oscillator.dispose 3 oscStarted).getD (oscStarted, []) |>.2, ?_, ?_⟩
    · with_unfolding_all rfl
    · exact dispose_idempotent.1 oscStarted _ _ 3 4 (by with_unfolding_all rfl)
  · exact dispose_idempotent.2 noiseStarted 3 4

/-- C5 (amended): no reachable sequence of public operations over an
oscillator ever issues an exponential-ramp scheduling call with a
negative target, on any parameter — but a zero target is reachable
(`freq(0)` then `start()`), so the claim's stronger "never zero or
negative" is false. -/
theorem reachable_exponential_targets_nonneg :
    ∀ (freq : Option ℚ) (type : Option String) (now : ℚ)
      (ops : List (ℚ × OscOp)) (s' : Oscillator),
      oscRun ops (Oscillator.init freq type now) = some s' →
      s'.expSafe = true := by
  intro freq type now ops s' hrun
  exact expSafe_oscRun (expSafe_init freq type now) hrun

theorem reachable_exponential_targets_nonneg_witness :
    oscRun [(0, .opFreq (.jnum 440) none none), (0, .opStart none none)]
        (Oscillator.init none none 0) = some c5witState ∧
    c5witState.expSafe = true := by
  refine ⟨by with_unfolding_all rfl, ?_⟩
  exact reachable_exponential_targets_nonneg none none 0
    [(0, .opFreq (.jnum 440) none none), (0, .opStart none none)] c5witState
    (by with_unfolding_all rfl)

/-- C5 counterexample: the reachable sequence `freq(0); start()` from a
fresh oscillator issues `exponentialRampToValueAtTime` with target 0 on
the new generator's frequency parameter — the strict version of the
claim ("never zero or negative") is false. -/
theorem exponential_ramp_to_zero_reachable :
    ((oscRun [(0, .opFreq (.jnum 0) none none), (0, .opStart none none)]
        (Oscillator.init none none 0)).map
      (fun s => (s.expStrictSafe, s.oscillator.map (fun nd => nd.frequency.events))))
      = some (false,
          some [ParamEvent.exponentialRampToValueAtTime (.jnum 0) 0]) := by
  with_unfolding_all rfl

end P5
